import Mathlib

set_option maxHeartbeats 1000000

/-!
Verification of the client-side error-handling core of the repository
(ErrorManager, typed error hierarchy, retry policy, error boundary state
machine, global error store). Each TypeScript function is embedded as an
executable Lean definition; the ambient clock (`new Date().toISOString()`)
is passed in as an explicit `now : String` argument, the build mode
(`process.env.NODE_ENV === 'production'`) as a `production : Bool` flag,
and captured stack traces as an abstract `Option String` payload.
-/

/-- Error severity levels (`ErrorSeverity` in src/types). -/
inductive ErrorSeverity
  | low | medium | high | critical
deriving DecidableEq, Repr

/-- Error categories for classification (`ErrorCategory` in src/types). -/
inductive ErrorCategory
  | network | validation | authentication | authorization | server | client | unknown
deriving DecidableEq, Repr

/-- A protocol/status code: the TypeScript union `string | number`. -/
inductive ErrCode
  | str (s : String)
  | num (n : Int)
deriving DecidableEq, Repr

/-- An abstract JavaScript value, used for the `data` diagnostic payload and
for inputs to `handle` that are neither errors nor strings. -/
inductive JsValue
  | null
  | undef
  | tagged (tag : String)
deriving DecidableEq, Repr

/-- The normalized error record (`ErrorResponse` in src/types). -/
structure ErrorResponse where
  message : String
  severity : ErrorSeverity
  category : ErrorCategory
  code : Option ErrCode
  timestamp : String
  data : Option JsValue
  retry : Bool
  stack : Option String
deriving DecidableEq, Repr

/-- Runtime class tag of a constructed error object: the dispatch target of
the virtual `getUserMessage` method. -/
inductive ErrClass
  | base | network | timeout | authentication | sessionExpired | authorization
  | validation | server | notFound | rateLimit
deriving DecidableEq, Repr

/-- `BaseError` (src/errors/classes/BaseError.ts) and its subclasses,
flattened into one record: `fieldErrors` is populated only by
`ValidationError` (as an ordered association list, mirroring JS object key
order) and `retryAfter` only by `RateLimitError`. -/
structure BaseError where
  cls : ErrClass
  message : String
  category : ErrorCategory
  severity : ErrorSeverity
  timestamp : String
  code : Option ErrCode
  data : Option JsValue
  retry : Bool
  stack : Option String
  fieldErrors : List (String × List String)
  retryAfter : Option Int
deriving DecidableEq, Repr

/-- The `BaseError` constructor: `timestamp` is set to the construction-time
clock value `now`; the captured stack trace is the abstract `stack`. -/
def BaseError.make (now : String) (stack : Option String) (message : String)
    (category : ErrorCategory) (severity : ErrorSeverity)
    (code : Option ErrCode) (data : Option JsValue) (retry : Bool) : BaseError :=
  { cls := ErrClass.base, message := message, category := category,
    severity := severity, timestamp := now, code := code, data := data,
    retry := retry, stack := stack, fieldErrors := [], retryAfter := none }

/-- JavaScript `c || d` on an optional code: absent, `0` and `""` are falsy. -/
def codeOr (c : Option ErrCode) (d : ErrCode) : ErrCode :=
  match c with
  | none => d
  | some (ErrCode.num n) => if n = 0 then d else ErrCode.num n
  | some (ErrCode.str s) => if s = "" then d else ErrCode.str s

/-- JavaScript `m || d` on an optional string: absent and `""` are falsy. -/
def strOr (m : Option String) (d : String) : String :=
  match m with
  | none => d
  | some s => if s = "" then d else s

/-- `NetworkError` constructor (src/errors/classes/NetworkError.ts). -/
def NetworkError.make (now : String) (stack : Option String) (message : String)
    (code : Option ErrCode) (data : Option JsValue) (retry : Bool) : BaseError :=
  { BaseError.make now stack message ErrorCategory.network ErrorSeverity.high code data retry
    with cls := ErrClass.network }

/-- `TimeoutError` constructor: a `NetworkError` whose severity is lowered to
medium after construction. -/
def TimeoutError.make (now : String) (stack : Option String) (message : String)
    (code : Option ErrCode) (data : Option JsValue) (retry : Bool) : BaseError :=
  { NetworkError.make now stack message code data retry
    with cls := ErrClass.timeout, severity := ErrorSeverity.medium }

/-- `AuthenticationError` constructor (src/errors/classes/AuthErrors.ts). -/
def AuthenticationError.make (now : String) (stack : Option String) (message : String)
    (code : Option ErrCode) (data : Option JsValue) (retry : Bool) : BaseError :=
  { BaseError.make now stack message ErrorCategory.authentication ErrorSeverity.high code data retry
    with cls := ErrClass.authentication }

/-- `SessionExpiredError` constructor: an `AuthenticationError` with
`retry = true` forced by the subclass constructor. -/
def SessionExpiredError.make (now : String) (stack : Option String) (message : String)
    (code : Option ErrCode) (data : Option JsValue) : BaseError :=
  { AuthenticationError.make now stack message code data true
    with cls := ErrClass.sessionExpired }

/-- `AuthorizationError` constructor (src/errors/classes/AuthErrors.ts). -/
def AuthorizationError.make (now : String) (stack : Option String) (message : String)
    (code : Option ErrCode) (data : Option JsValue) (retry : Bool) : BaseError :=
  { BaseError.make now stack message ErrorCategory.authorization ErrorSeverity.high code data retry
    with cls := ErrClass.authorization }

/-- `ValidationError` constructor (src/errors/classes/ValidationError.ts). -/
def ValidationError.make (now : String) (stack : Option String) (message : String)
    (fieldErrors : List (String × List String))
    (code : Option ErrCode) (data : Option JsValue) (retry : Bool) : BaseError :=
  { BaseError.make now stack message ErrorCategory.validation ErrorSeverity.medium code data retry
    with cls := ErrClass.validation, fieldErrors := fieldErrors }

/-- `ServerError` constructor (src/errors/classes/ServerErrors.ts). -/
def ServerError.make (now : String) (stack : Option String) (message : String)
    (code : Option ErrCode) (data : Option JsValue) (retry : Bool) : BaseError :=
  { BaseError.make now stack message ErrorCategory.server ErrorSeverity.high code data retry
    with cls := ErrClass.server }

/-- `NotFoundError` constructor: category `server`, severity `medium`,
code defaulting to 404 via JavaScript `code || 404`. -/
def NotFoundError.make (now : String) (stack : Option String) (message : String)
    (code : Option ErrCode) (data : Option JsValue) (retry : Bool) : BaseError :=
  { BaseError.make now stack message ErrorCategory.server ErrorSeverity.medium
      (some (codeOr code (ErrCode.num 404))) data retry
    with cls := ErrClass.notFound }

/-- `RateLimitError` constructor: category `server`, severity `medium`,
code defaulting to 429, `retry` hard-wired to `true`. -/
def RateLimitError.make (now : String) (stack : Option String) (message : String)
    (retryAfter : Option Int)
    (code : Option ErrCode) (data : Option JsValue) : BaseError :=
  { BaseError.make now stack message ErrorCategory.server ErrorSeverity.medium
      (some (codeOr code (ErrCode.num 429))) data true
    with cls := ErrClass.rateLimit, retryAfter := retryAfter }

/-- Virtual dispatch of `getUserMessage()` over the class hierarchy. The
`validation` arm mirrors `firstError || this.message` (with the lookup of a
missing first element and the empty string both falsy); the `rateLimit` arm
mirrors `this.retryAfter ? ... : ...` (with `0` falsy). -/
def BaseError.getUserMessage (b : BaseError) : String :=
  match b.cls with
  | ErrClass.base => b.message
  | ErrClass.network =>
      "There was a problem connecting to the server. Please check your internet connection and try again."
  | ErrClass.timeout =>
      "The request is taking longer than expected. Please try again later."
  | ErrClass.authentication =>
      "Authentication failed. Please check your credentials and try again."
  | ErrClass.sessionExpired =>
      "Your session has expired. Please log in again."
  | ErrClass.authorization =>
      "You do not have permission to access this resource."
  | ErrClass.validation =>
      match b.fieldErrors with
      | [] => "Please review the form for errors and try again."
      | (_, errs) :: _ =>
          match errs with
          | [] => b.message
          | e :: _ => if e = "" then b.message else e
  | ErrClass.server =>
      "An unexpected server error occurred. Our team has been notified."
  | ErrClass.notFound =>
      "The requested resource was not found."
  | ErrClass.rateLimit =>
      match b.retryAfter with
      | some n =>
          if n = 0 then "Request limit reached. Please try again later."
          else "Request limit reached. Please try again in " ++ toString n ++ " seconds."
      | none => "Request limit reached. Please try again later."

/-- Whether `needle` occurs as a contiguous run inside the character list. -/
def listContains (needle : List Char) : List Char → Bool
  | [] => needle.isEmpty
  | c :: cs => needle.isPrefixOf (c :: cs) || listContains needle cs

/-- JavaScript `hay.includes(needle)`. -/
def strIncludes (hay needle : String) : Bool :=
  listContains needle.toList hay.toList

/-- JavaScript `s.toLowerCase()`, modelled characterwise. -/
def lowerStr (s : String) : String :=
  ⟨s.data.map Char.toLower⟩

/-- The dynamic type of a raised value, as `ErrorManager.handle` dispatches
on it: a `BaseError` instance, a plain `Error` (message plus stack), a
string, or anything else. -/
inductive RaisedValue
  | typed (b : BaseError)
  | jsError (message : String) (stack : Option String)
  | str (s : String)
  | other (v : JsValue)
deriving Repr

/-- `ErrorManager.formatErrorResponse`: formats a `BaseError` using its own
fields; the stack is dropped in production builds. -/
def formatErrorResponse (production : Bool) (error : BaseError) : ErrorResponse :=
  { message := error.getUserMessage, severity := error.severity,
    category := error.category, code := error.code,
    timestamp := error.timestamp, data := error.data, retry := error.retry,
    stack := if production then none else error.stack }

/-- `ErrorManager.handleStandardError`: classifies a plain `Error` by
case-insensitive substring scan of its message. -/
def handleStandardError (production : Bool) (now : String)
    (message : String) (stack : Option String) : ErrorResponse :=
  let lowerMessage := lowerStr message
  let csr :=
    if strIncludes lowerMessage "network" || strIncludes lowerMessage "fetch"
        || strIncludes lowerMessage "connection" then
      (ErrorCategory.network, ErrorSeverity.high, true)
    else if strIncludes lowerMessage "timeout" || strIncludes lowerMessage "timed out" then
      (ErrorCategory.network, ErrorSeverity.medium, true)
    else if strIncludes lowerMessage "auth" || strIncludes lowerMessage "login"
        || strIncludes lowerMessage "permission" then
      (ErrorCategory.authentication, ErrorSeverity.high, false)
    else if strIncludes lowerMessage "validate" || strIncludes lowerMessage "invalid" then
      (ErrorCategory.validation, ErrorSeverity.low, true)
    else if strIncludes lowerMessage "server" || strIncludes lowerMessage "500" then
      (ErrorCategory.server, ErrorSeverity.high, true)
    else
      (ErrorCategory.unknown, ErrorSeverity.medium, true)
  { message := message, severity := csr.2.1, category := csr.1, code := none,
    timestamp := now, data := none, retry := csr.2.2,
    stack := if production then none else stack }

/-- `ErrorManager.handleStringError`. -/
def handleStringError (now : String) (error : String) : ErrorResponse :=
  { message := error, severity := ErrorSeverity.medium,
    category := ErrorCategory.unknown, code := none, timestamp := now,
    data := none, retry := true, stack := none }

/-- `ErrorManager.handleUnknownError`: the original value is kept as `data`. -/
def handleUnknownError (now : String) (error : JsValue) : ErrorResponse :=
  { message := "An unknown error occurred", severity := ErrorSeverity.medium,
    category := ErrorCategory.unknown, code := none, timestamp := now,
    data := some error, retry := true, stack := none }

/-- `ErrorManager.handle`: the single normalization entry point, dispatching
in source order (BaseError first, then Error, then string, then anything). -/
def handle (production : Bool) (now : String) (error : RaisedValue) : ErrorResponse :=
  match error with
  | RaisedValue.typed b => formatErrorResponse production b
  | RaisedValue.jsError message stack => handleStandardError production now message stack
  | RaisedValue.str s => handleStringError now s
  | RaisedValue.other v => handleUnknownError now v

/-- `ErrorManager.createFromHttpStatus`: maps an HTTP status to a typed
error, testing the cases in source order. -/
def createFromHttpStatus (now : String) (stack : Option String) (status : Int)
    (message : Option String) (data : Option JsValue) : BaseError :=
  if status = 400 then
    ValidationError.make now stack (strOr message "Bad Request") []
      (some (ErrCode.num status)) data true
  else if status = 401 then
    AuthenticationError.make now stack (strOr message "Unauthorized")
      (some (ErrCode.num status)) data true
  else if status = 403 then
    AuthorizationError.make now stack (strOr message "Forbidden")
      (some (ErrCode.num status)) data false
  else if status = 404 then
    NotFoundError.make now stack (strOr message "Not Found")
      (some (ErrCode.num status)) data false
  else if status = 429 then
    RateLimitError.make now stack (strOr message "Too Many Requests") none
      (some (ErrCode.num status)) data
  else if 500 ≤ status then
    ServerError.make now stack (strOr message "Server Error")
      (some (ErrCode.num status)) data true
  else
    BaseError.make now stack (strOr message ("HTTP Error " ++ toString status))
      ErrorCategory.unknown ErrorSeverity.medium
      (some (ErrCode.num status)) data false

/-- `ErrorManager.shouldReport`: production-mode suppression of validation
and 404 errors, then the severity policy. -/
def shouldReport (production : Bool) (error : ErrorResponse) : Bool :=
  if production ∧ error.category = ErrorCategory.validation then false
  else if production ∧ error.code = some (ErrCode.num 404) then false
  else if error.severity = ErrorSeverity.high ∨ error.severity = ErrorSeverity.critical then true
  else if error.severity = ErrorSeverity.medium ∧ error.category ≠ ErrorCategory.validation then true
  else false

/-- The loop body of `retryWithBackoff` (src/utils/errorDecorator.ts). The
wrapped operation is modelled as a deterministic sequence of outcomes
indexed by the 0-based invocation number; the inter-attempt sleep has no
observable effect on the result and is elided. The second component of the
result is the number of invocations of the operation performed (equal to
the source's `attempts` counter at the throwing exit, and to the number of
calls made on the successful exit). -/
def retryAux {E A : Type} (maxRetries : Nat) (shouldRetry : E → Nat → Bool)
    (op : Nat → Except E A) (attempts : Nat) : Except E A × Nat :=
  match op attempts with
  | Except.ok a => (Except.ok a, attempts + 1)
  | Except.error e =>
    if h : maxRetries ≤ attempts + 1 ∨ shouldRetry e (attempts + 1) = false then
      (Except.error e, attempts + 1)
    else
      retryAux maxRetries shouldRetry op (attempts + 1)
termination_by maxRetries - attempts
decreasing_by
  push_neg at h
  omega

/-- `retryWithBackoff(fn, options)`: runs the loop from an attempt counter
of 0. Only `maxRetries` and `shouldRetry` influence which outcome is
returned; the delay options shape timing only. -/
def retryWithBackoff {E A : Type} (op : Nat → Except E A) (maxRetries : Nat)
    (shouldRetry : E → Nat → Bool) : Except E A × Nat :=
  retryAux maxRetries shouldRetry op 0

/-- The global error store's state (src/store/errorStore.ts). -/
structure ErrorState where
  currentError : Option ErrorResponse
  errorHistory : List ErrorResponse
  isErrorVisible : Bool
deriving DecidableEq, Repr

/-- The store's initial state. -/
def initialErrorState : ErrorState :=
  { currentError := none, errorHistory := [], isErrorVisible := false }

/-- `addToHistory`: front-insert and keep the 10 most recent entries. -/
def addToHistory (s : ErrorState) (error : ErrorResponse) : ErrorState :=
  { s with errorHistory := (error :: s.errorHistory).take 10 }

/-- `setError`: replace the current error, set visibility to `Boolean(error)`,
and, when the error is non-null, add it to the history. -/
def setError (s : ErrorState) (error : Option ErrorResponse) : ErrorState :=
  let s1 := { s with currentError := error, isErrorVisible := error.isSome }
  match error with
  | some e => addToHistory s1 e
  | none => s1

/-- `clearError`. -/
def clearError (s : ErrorState) : ErrorState :=
  { s with currentError := none, isErrorVisible := false }

/-- `showError`. -/
def showError (s : ErrorState) : ErrorState :=
  { s with isErrorVisible := true }

/-- `hideError`. -/
def hideError (s : ErrorState) : ErrorState :=
  { s with isErrorVisible := false }

/-- `clearHistory`. -/
def clearHistory (s : ErrorState) : ErrorState :=
  { s with errorHistory := [] }

/-- The `ErrorBoundary` component state (src/errors/boundaries/ErrorBoundary.tsx):
`Stable` is `hasError = false`, `Failed e` is `hasError = true` with `error = some e`. -/
structure ErrorBoundaryState where
  hasError : Bool
  error : Option ErrorResponse
deriving DecidableEq, Repr

/-- The boundary's constructor state. -/
def ErrorBoundary.initialState : ErrorBoundaryState :=
  { hasError := false, error := none }

/-- `ErrorBoundary.getDerivedStateFromError`: a raise inside the guarded
region replaces the state with `Failed (handle raw)`. -/
def getDerivedStateFromError (production : Bool) (now : String)
    (raw : RaisedValue) : ErrorBoundaryState :=
  { hasError := true, error := some (handle production now raw) }

/-- `ErrorBoundary.reset`: clears the error flag and the held error. -/
def ErrorBoundary.reset (_s : ErrorBoundaryState) : ErrorBoundaryState :=
  { hasError := false, error := none }

/-- The `fallback` prop: absent, a fixed node, or a function of the error. -/
inductive Fallback (Output : Type)
  | missing
  | node (o : Output)
  | fn (f : ErrorResponse → Output)

/-- `ErrorBoundary.render`: in the `Failed` state with a held error, render
the fallback (function, node, or the built-in default UI); otherwise render
the children. -/
def ErrorBoundary.render {Output : Type} (s : ErrorBoundaryState)
    (fb : Fallback Output) (children : Output)
    (defaultFallback : ErrorResponse → Output) : Output :=
  match s.hasError, s.error with
  | true, some e =>
    match fb with
    | Fallback.fn f => f e
    | Fallback.node o => o
    | Fallback.missing => defaultFallback e
  | _, _ => children

/-- C1: under the production-mode policy, a validation-category or code-404
error is never reported regardless of severity; otherwise high and critical
severities are always reported, medium is reported exactly when the
category is not validation, and low is never reported. -/
theorem shouldReport_spec (production : Bool) (e : ErrorResponse) :
    (production = true →
      e.category = ErrorCategory.validation ∨ e.code = some (ErrCode.num 404) →
      shouldReport production e = false) ∧
    (¬ (production = true ∧
        (e.category = ErrorCategory.validation ∨ e.code = some (ErrCode.num 404))) →
      (e.severity = ErrorSeverity.high ∨ e.severity = ErrorSeverity.critical →
        shouldReport production e = true) ∧
      (e.severity = ErrorSeverity.medium → e.category ≠ ErrorCategory.validation →
        shouldReport production e = true) ∧
      (e.severity = ErrorSeverity.low → shouldReport production e = false)) := by
  obtain ⟨msg, sev, cat, code, ts, data, r, st⟩ := e
  by_cases hc : code = some (ErrCode.num 404) <;>
    cases production <;> cases sev <;> cases cat <;>
    simp_all [shouldReport]

/-- Witness for C1 at a concrete record: a critical validation error is
suppressed under the production policy. -/
theorem shouldReport_spec_witness :
    shouldReport true
      { message := "x", severity := ErrorSeverity.critical,
        category := ErrorCategory.validation, code := none, timestamp := "t",
        data := none, retry := false, stack := none } = false :=
  (shouldReport_spec true
    { message := "x", severity := ErrorSeverity.critical,
      category := ErrorCategory.validation, code := none, timestamp := "t",
      data := none, retry := false, stack := none }).1 rfl (Or.inl rfl)

/-- C3: normalizing a value that is already a typed error yields the
instance's `userMessage()` as message and passes its category, severity,
code, data and retry fields through unchanged. -/
theorem handle_typed_spec (production : Bool) (now : String) (b : BaseError) :
    (handle production now (RaisedValue.typed b)).message = b.getUserMessage ∧
    (handle production now (RaisedValue.typed b)).category = b.category ∧
    (handle production now (RaisedValue.typed b)).severity = b.severity ∧
    (handle production now (RaisedValue.typed b)).code = b.code ∧
    (handle production now (RaisedValue.typed b)).data = b.data ∧
    (handle production now (RaisedValue.typed b)).retry = b.retry := by
  simp [handle, formatErrorResponse]

/-- C7: `setError` replaces the current error and makes it visible exactly
when non-null, front-inserting non-null errors into the history truncated
to 10; starting from the initial store, 11 sequential `setError` calls
leave a history of length 10 whose head is the 11th error and whose last
slot is the 2nd error. -/
theorem setError_spec :
    (∀ (s : ErrorState) (e : ErrorResponse),
      (setError s (some e)).currentError = some e ∧
      (setError s (some e)).isErrorVisible = true ∧
      (setError s (some e)).errorHistory = (e :: s.errorHistory).take 10) ∧
    (∀ s : ErrorState,
      (setError s none).currentError = none ∧
      (setError s none).isErrorVisible = false ∧
      (setError s none).errorHistory = s.errorHistory) ∧
    (∀ e1 e2 e3 e4 e5 e6 e7 e8 e9 e10 e11 : ErrorResponse,
      (List.foldl (fun s e => setError s (some e)) initialErrorState
          [e1, e2, e3, e4, e5, e6, e7, e8, e9, e10, e11]).errorHistory.length = 10 ∧
      (List.foldl (fun s e => setError s (some e)) initialErrorState
          [e1, e2, e3, e4, e5, e6, e7, e8, e9, e10, e11]).errorHistory.head? = some e11 ∧
      (List.foldl (fun s e => setError s (some e)) initialErrorState
          [e1, e2, e3, e4, e5, e6, e7, e8, e9, e10, e11]).errorHistory[9]? = some e2) := by
  refine ⟨fun s e => ⟨rfl, rfl, rfl⟩, fun s => ⟨rfl, rfl, rfl⟩, ?_⟩
  intro e1 e2 e3 e4 e5 e6 e7 e8 e9 e10 e11
  exact ⟨rfl, rfl, rfl⟩

/-- C8: inside the boundary, a raise moves the machine to the `Failed` state
holding exactly `handle raw`; an explicit reset returns it to the initial
`Stable` state and the guarded region's own output is rendered again; and a
raise after the reset is caught once more, rendering the fallback with the
newly normalized error. -/
theorem errorBoundary_spec {Output : Type} (production : Bool)
    (now1 now2 : String) (raw1 raw2 : RaisedValue) (fb : Fallback Output)
    (children : Output) (defaultFallback : ErrorResponse → Output)
    (f : ErrorResponse → Output) :
    (getDerivedStateFromError production now1 raw1).hasError = true ∧
    (getDerivedStateFromError production now1 raw1).error
      = some (handle production now1 raw1) ∧
    ErrorBoundary.reset (getDerivedStateFromError production now1 raw1)
      = ErrorBoundary.initialState ∧
    ErrorBoundary.render (ErrorBoundary.reset (getDerivedStateFromError production now1 raw1))
      fb children defaultFallback = children ∧
    (getDerivedStateFromError production now2 raw2).hasError = true ∧
    ErrorBoundary.render (getDerivedStateFromError production now2 raw2)
      (Fallback.fn f) children defaultFallback = f (handle production now2 raw2) := by
  exact ⟨rfl, rfl, rfl, rfl, rfl, rfl⟩

/-- C9 counterexample: it is not the case that every normalized error has a
non-empty message — normalizing the raised plain string `""` yields a
record whose message is the empty string. -/
theorem handle_message_nonempty_cex :
    ¬ (∀ (production : Bool) (now : String) (raw : RaisedValue),
        (handle production now raw).message ≠ "") :=
  fun h => h false "t" (RaisedValue.str "") rfl

/-- C9 (amended): the normalized message is non-empty whenever the raised
value itself carries a non-empty message — a non-empty string, a plain
error with a non-empty message, or a typed error whose `userMessage()` is
non-empty; on the unknown-value path the fixed message is always
non-empty. -/
theorem handle_message_nonempty_amended (production : Bool) (now : String)
    (raw : RaisedValue)
    (hne : match raw with
           | RaisedValue.typed b => b.getUserMessage ≠ ""
           | RaisedValue.jsError m _ => m ≠ ""
           | RaisedValue.str s => s ≠ ""
           | RaisedValue.other _ => True) :
    (handle production now raw).message ≠ "" := by
  cases raw with
  | typed b => simpa [handle, formatErrorResponse] using hne
  | jsError m st => simpa [handle, handleStandardError] using hne
  | str s => simpa [handle, handleStringError] using hne
  | other v => simp [handle, handleUnknownError]

/-- Witness for the amended C9: normalizing a non-error value produces the
fixed non-empty unknown-error message. -/
theorem handle_message_nonempty_amended_witness :
    (handle false "t" (RaisedValue.other JsValue.null)).message ≠ "" :=
  handle_message_nonempty_amended false "t" (RaisedValue.other JsValue.null) trivial

/-- C10 counterexample: the normalized timestamp is not always the
normalization-time clock value — a typed error constructed at clock "t1"
and normalized at clock "t2" keeps its construction-time timestamp "t1". -/
theorem handle_timestamp_cex :
    ¬ (∀ (production : Bool) (now : String) (raw : RaisedValue),
        (handle production now raw).timestamp = now) := by
  intro h
  have h12 := h false "t2"
    (RaisedValue.typed (BaseError.make "t1" none "m" ErrorCategory.unknown
      ErrorSeverity.medium none none false))
  simp [handle, formatErrorResponse, BaseError.make] at h12

/-- C10 (amended): the normalized timestamp is the normalization-time clock
value on the plain-error, string and unknown-value paths, but on the
typed-error path it is the typed error's own construction-time timestamp. -/
theorem handle_timestamp_amended (production : Bool) (now : String) :
    (∀ b : BaseError,
      (handle production now (RaisedValue.typed b)).timestamp = b.timestamp) ∧
    (∀ (m : String) (st : Option String),
      (handle production now (RaisedValue.jsError m st)).timestamp = now) ∧
    (∀ s : String, (handle production now (RaisedValue.str s)).timestamp = now) ∧
    (∀ v : JsValue, (handle production now (RaisedValue.other v)).timestamp = now) :=
  ⟨fun _ => rfl, fun _ _ => rfl, fun _ => rfl, fun _ => rfl⟩

/-- C4: an operation that fails on every invocation under
`maxRetries = 3` and the default always-true retry predicate is invoked
exactly 3 times, and the failure of the 3rd invocation is re-raised
unchanged, with no normalization or wrapping. -/
theorem retryWithBackoff_allFail_spec {E A : Type} (f : Nat → E)
    (op : Nat → Except E A) (hop : ∀ i, op i = Except.error (f i)) :
    retryWithBackoff op 3 (fun _ _ => true) = (Except.error (f 2), 3) := by
  unfold retryWithBackoff
  rw [retryAux, hop 0]
  norm_num
  rw [retryAux, hop 1]
  norm_num
  rw [retryAux, hop 2]
  norm_num

/-- Witness for C4: the always-failing operation that raises its own
invocation index is invoked 3 times and the 3rd failure is re-raised. -/
theorem retryWithBackoff_allFail_spec_witness :
    retryWithBackoff (fun i => (Except.error i : Except Nat Unit)) 3
      (fun _ _ => true) = (Except.error 2, 3) :=
  retryWithBackoff_allFail_spec (fun i => i) (fun i => Except.error i)
    (fun _ => rfl)

/-- C5: under `maxRetries = 5` and an always-true retry predicate, an
operation failing on its first two invocations and succeeding on the third
returns the third invocation's success value after exactly 3 invocations;
in general, a success on the very first invocation returns immediately with
no further attempts. -/
theorem retryWithBackoff_succeedThird_spec {E A : Type} (e0 e1 : E) (a : A)
    (op : Nat → Except E A) (h0 : op 0 = Except.error e0)
    (h1 : op 1 = Except.error e1) (h2 : op 2 = Except.ok a) :
    retryWithBackoff op 5 (fun _ _ => true) = (Except.ok a, 3) ∧
    (∀ {E2 A2 : Type} (op2 : Nat → Except E2 A2) (b : A2) (maxR : Nat)
        (sr : E2 → Nat → Bool),
      op2 0 = Except.ok b → retryWithBackoff op2 maxR sr = (Except.ok b, 1)) := by
  constructor
  · unfold retryWithBackoff
    rw [retryAux, h0]
    norm_num
    rw [retryAux, h1]
    norm_num
    rw [retryAux, h2]
  · intro E2 A2 op2 b maxR sr h
    unfold retryWithBackoff
    rw [retryAux, h]

/-- Witness for C5: a concrete operation failing twice then succeeding. -/
theorem retryWithBackoff_succeedThird_spec_witness :
    retryWithBackoff
      (fun i => if i < 2 then (Except.error i : Except Nat String)
                else Except.ok "done") 5 (fun _ _ => true)
      = (Except.ok "done", 3) :=
  (retryWithBackoff_succeedThird_spec 0 1 "done"
    (fun i => if i < 2 then Except.error i else Except.ok "done")
    rfl rfl rfl).1

/-- C6: the HTTP-status factory returns a Validation error for 400,
Authentication for 401, Authorization for 403, NotFound for 404 (with
`retry = false` and code 404), RateLimit for 429, Server for every status
at least 500, and otherwise a generic unknown/medium error whose message is
"HTTP Error {status}" when no message is supplied. -/
theorem createFromHttpStatus_spec (now : String) (stack : Option String)
    (message : Option String) (data : Option JsValue) :
    (createFromHttpStatus now stack 400 message data).cls = ErrClass.validation ∧
    (createFromHttpStatus now stack 401 message data).cls = ErrClass.authentication ∧
    (createFromHttpStatus now stack 403 message data).cls = ErrClass.authorization ∧
    ((createFromHttpStatus now stack 404 message data).cls = ErrClass.notFound ∧
      (createFromHttpStatus now stack 404 message data).retry = false ∧
      (createFromHttpStatus now stack 404 message data).code = some (ErrCode.num 404)) ∧
    (createFromHttpStatus now stack 429 message data).cls = ErrClass.rateLimit ∧
    (∀ s : Int, 500 ≤ s →
      (createFromHttpStatus now stack s message data).cls = ErrClass.server) ∧
    (∀ s : Int, s ≠ 400 → s ≠ 401 → s ≠ 403 → s ≠ 404 → s ≠ 429 → s < 500 →
      (createFromHttpStatus now stack s message data).cls = ErrClass.base ∧
      (createFromHttpStatus now stack s message data).category = ErrorCategory.unknown ∧
      (createFromHttpStatus now stack s message data).severity = ErrorSeverity.medium ∧
      (createFromHttpStatus now stack s none data).message = "HTTP Error " ++ toString s) := by
  refine ⟨?_, ?_, ?_, ⟨?_, ?_, ?_⟩, ?_, ?_, ?_⟩
  · norm_num [createFromHttpStatus, ValidationError.make, BaseError.make]
  · norm_num [createFromHttpStatus, AuthenticationError.make, BaseError.make]
  · norm_num [createFromHttpStatus, AuthorizationError.make, BaseError.make]
  · norm_num [createFromHttpStatus, NotFoundError.make, BaseError.make]
  · norm_num [createFromHttpStatus, NotFoundError.make, BaseError.make]
  · norm_num [createFromHttpStatus, NotFoundError.make, BaseError.make, codeOr]
  · norm_num [createFromHttpStatus, RateLimitError.make, BaseError.make]
  · intro s hs
    simp only [createFromHttpStatus,
      if_neg (show ¬ s = 400 by omega), if_neg (show ¬ s = 401 by omega),
      if_neg (show ¬ s = 403 by omega), if_neg (show ¬ s = 404 by omega),
      if_neg (show ¬ s = 429 by omega), if_pos hs]
    rfl
  · intro s h400 h401 h403 h404 h429 h500
    simp only [createFromHttpStatus, if_neg h400, if_neg h401, if_neg h403,
      if_neg h404, if_neg h429, if_neg (show ¬ (500 : Int) ≤ s by omega)]
    exact ⟨rfl, rfl, rfl, rfl⟩

/-- Witness for C6 at concrete statuses: 503 maps to a Server error and 418
falls through to the generic unknown-category error. -/
theorem createFromHttpStatus_spec_witness :
    (createFromHttpStatus "t" none 503 (some "boom") none).cls = ErrClass.server ∧
    (createFromHttpStatus "t" none 418 none none).cls = ErrClass.base :=
  ⟨(createFromHttpStatus_spec "t" none (some "boom") none).2.2.2.2.2.1 503
      (by norm_num),
    ((createFromHttpStatus_spec "t" none none none).2.2.2.2.2.2 418
      (by norm_num) (by norm_num) (by norm_num) (by norm_num) (by norm_num)
      (by norm_num)).1⟩

/-- C2: normalizing a plain runtime error keeps its message and classifies
it by case-insensitive substring scan of the message with the source's
precedence: network/fetch/connection give network/high; else
timeout/timed out give network/medium; else auth/login/permission give
authentication/high with retry false; else validate/invalid give
validation/low; else server/500 give server/high; else unknown/medium;
retry is true in every branch except the authentication one. -/
theorem handleStandardError_spec (production : Bool) (now msg : String)
    (stack : Option String) :
    (handle production now (RaisedValue.jsError msg stack)).message = msg ∧
    ((strIncludes (lowerStr msg) "network" || strIncludes (lowerStr msg) "fetch"
        || strIncludes (lowerStr msg) "connection") = true →
      (handle production now (RaisedValue.jsError msg stack)).category = ErrorCategory.network ∧
      (handle production now (RaisedValue.jsError msg stack)).severity = ErrorSeverity.high ∧
      (handle production now (RaisedValue.jsError msg stack)).retry = true) ∧
    ((strIncludes (lowerStr msg) "network" || strIncludes (lowerStr msg) "fetch"
        || strIncludes (lowerStr msg) "connection") = false →
      (strIncludes (lowerStr msg) "timeout" || strIncludes (lowerStr msg) "timed out") = true →
      (handle production now (RaisedValue.jsError msg stack)).category = ErrorCategory.network ∧
      (handle production now (RaisedValue.jsError msg stack)).severity = ErrorSeverity.medium ∧
      (handle production now (RaisedValue.jsError msg stack)).retry = true) ∧
    ((strIncludes (lowerStr msg) "network" || strIncludes (lowerStr msg) "fetch"
        || strIncludes (lowerStr msg) "connection") = false →
      (strIncludes (lowerStr msg) "timeout" || strIncludes (lowerStr msg) "timed out") = false →
      (strIncludes (lowerStr msg) "auth" || strIncludes (lowerStr msg) "login"
        || strIncludes (lowerStr msg) "permission") = true →
      (handle production now (RaisedValue.jsError msg stack)).category = ErrorCategory.authentication ∧
      (handle production now (RaisedValue.jsError msg stack)).severity = ErrorSeverity.high ∧
      (handle production now (RaisedValue.jsError msg stack)).retry = false) ∧
    ((strIncludes (lowerStr msg) "network" || strIncludes (lowerStr msg) "fetch"
        || strIncludes (lowerStr msg) "connection") = false →
      (strIncludes (lowerStr msg) "timeout" || strIncludes (lowerStr msg) "timed out") = false →
      (strIncludes (lowerStr msg) "auth" || strIncludes (lowerStr msg) "login"
        || strIncludes (lowerStr msg) "permission") = false →
      (strIncludes (lowerStr msg) "validate" || strIncludes (lowerStr msg) "invalid") = true →
      (handle production now (RaisedValue.jsError msg stack)).category = ErrorCategory.validation ∧
      (handle production now (RaisedValue.jsError msg stack)).severity = ErrorSeverity.low ∧
      (handle production now (RaisedValue.jsError msg stack)).retry = true) ∧
    ((strIncludes (lowerStr msg) "network" || strIncludes (lowerStr msg) "fetch"
        || strIncludes (lowerStr msg) "connection") = false →
      (strIncludes (lowerStr msg) "timeout" || strIncludes (lowerStr msg) "timed out") = false →
      (strIncludes (lowerStr msg) "auth" || strIncludes (lowerStr msg) "login"
        || strIncludes (lowerStr msg) "permission") = false →
      (strIncludes (lowerStr msg) "validate" || strIncludes (lowerStr msg) "invalid") = false →
      (strIncludes (lowerStr msg) "server" || strIncludes (lowerStr msg) "500") = true →
      (handle production now (RaisedValue.jsError msg stack)).category = ErrorCategory.server ∧
      (handle production now (RaisedValue.jsError msg stack)).severity = ErrorSeverity.high ∧
      (handle production now (RaisedValue.jsError msg stack)).retry = true) ∧
    ((strIncludes (lowerStr msg) "network" || strIncludes (lowerStr msg) "fetch"
        || strIncludes (lowerStr msg) "connection") = false →
      (strIncludes (lowerStr msg) "timeout" || strIncludes (lowerStr msg) "timed out") = false →
      (strIncludes (lowerStr msg) "auth" || strIncludes (lowerStr msg) "login"
        || strIncludes (lowerStr msg) "permission") = false →
      (strIncludes (lowerStr msg) "validate" || strIncludes (lowerStr msg) "invalid") = false →
      (strIncludes (lowerStr msg) "server" || strIncludes (lowerStr msg) "500") = false →
      (handle production now (RaisedValue.jsError msg stack)).category = ErrorCategory.unknown ∧
      (handle production now (RaisedValue.jsError msg stack)).severity = ErrorSeverity.medium ∧
      (handle production now (RaisedValue.jsError msg stack)).retry = true) := by
  refine ⟨rfl, ?_, ?_, ?_, ?_, ?_, ?_⟩
  · intro h1
    simp [handle, handleStandardError, h1]
  · intro h1 h2
    simp [handle, handleStandardError, h1, h2]
  · intro h1 h2 h3
    simp [handle, handleStandardError, h1, h2, h3]
  · intro h1 h2 h3 h4
    simp [handle, handleStandardError, h1, h2, h3, h4]
  · intro h1 h2 h3 h4 h5
    simp [handle, handleStandardError, h1, h2, h3, h4, h5]
  · intro h1 h2 h3 h4 h5
    simp [handle, handleStandardError, h1, h2, h3, h4, h5]

/-- Witness for C2: a message containing "network" is classified as a
high-severity network error. -/
theorem handleStandardError_spec_witness :
    (handle false "t" (RaisedValue.jsError "Network down" none)).category
      = ErrorCategory.network ∧
    (handle false "t" (RaisedValue.jsError "Network down" none)).severity
      = ErrorSeverity.high ∧
    (handle false "t" (RaisedValue.jsError "Network down" none)).retry = true :=
  (handleStandardError_spec false "t" "Network down" none).2.1 (by decide)
